import Mathlib

/-!
Verification of `src/streamlit_bingo_app.py` (Danielkweber/bingo).

The program has two pure cores embedded here:
* `generate_bingo_card` (lines 42-116): slot-list construction (pad/trim to
  24, shuffle, insert the free-space label at index 12) and the grid-index
  mapping `idx = (4 - j) * 5 + i` used to place the 25 cells;
* `parse_items_with_llm` (lines 10-39): the response-stripping step for
  markdown code fences followed by `json.loads`.
The `random.shuffle` call is modelled by quantifying over any permutation
(`List.Perm`) of the slot list.  The Streamlit driver (lines 133-156) is
embedded as a function from the user input, the credential and the remote
response to the observable outcome (messages shown, whether the network call
and the rendering call happen).
-/

/-- The free-space label inserted at index 12
(line 53: `all_slots.insert(12, "FREE:\nAppreciate Life")`). -/
def FREE_LABEL : String := "FREE:\nAppreciate Life"

/-- The slot list built before shuffling (lines 45-48):
pad with empty strings to 24 items, or trim to the first 24. -/
def buildSlots (items : List String) : List String :=
  if items.length < 24 then items ++ List.replicate (24 - items.length) ""
  else items.take 24

/-- Insertion of the free square at index 12 (line 53), applied to the
(already shuffled) slot list. -/
def insertFree (shuffled : List String) : List String :=
  shuffled.insertIdx 12 FREE_LABEL

/-- The logical index of the grid cell drawn at column `i`, row `j`
(line 63: `idx = (4 - j) * 5 + i`; `j` is the matplotlib y coordinate, so
row 0 is the bottom row). -/
def gridIdx (i j : Nat) : Nat := (4 - j) * 5 + i

/-- `gridIdx` restricted to the 5 x 5 grid, landing in `Fin 25`. -/
def gridIdxF (p : Fin 5 × Fin 5) : Fin 25 :=
  ⟨gridIdx p.1.1 p.2.1, by
    have hi := p.1.2
    have hj := p.2.2
    unfold gridIdx
    omega⟩

/-- The fill color of the cell with logical index `idx`
(line 70: `face_color = "#fff0f3" if idx == 12 else "white"`). -/
def faceColor (idx : Nat) : String := if idx = 12 then "#fff0f3" else "white"

/-- The label drawn in the cell at column `i`, row `j`
(line 64: `label = all_slots[idx]`). -/
def cellLabel (slots : List String) (i j : Nat) : String :=
  slots.getD (gridIdx i j) ""

theorem buildSlots_length (items : List String) :
    (buildSlots items).length = 24 := by
  unfold buildSlots
  by_cases h : items.length < 24
  · simp [h]
    omega
  · simp [h]
    omega

/-- C1: for an input list of length L, the slot list built before shuffling
has length exactly 24; if L < 24 it is the L items followed by 24 - L empty
strings, and if L >= 24 it is the first 24 items in their original order. -/
theorem generate_bingo_card_slots_spec :
    (∀ items : List String, items.length < 24 →
      (buildSlots items).length = 24 ∧
      buildSlots items = items ++ List.replicate (24 - items.length) "") ∧
    (∀ items : List String, 24 ≤ items.length →
      (buildSlots items).length = 24 ∧
      buildSlots items = items.take 24) := by
  constructor
  · intro items h
    refine ⟨buildSlots_length items, ?_⟩
    simp [buildSlots, h]
  · intro items h
    refine ⟨buildSlots_length items, ?_⟩
    have h' : ¬ items.length < 24 := by omega
    simp [buildSlots, h']

theorem generate_bingo_card_slots_spec_witness :
    ((["a", "b"] : List String).length < 24 ∧
      (buildSlots ["a", "b"]).length = 24 ∧
      buildSlots ["a", "b"] = ["a", "b"] ++ List.replicate 22 "") ∧
    (24 ≤ (List.replicate 30 "x" : List String).length ∧
      (buildSlots (List.replicate 30 "x")).length = 24 ∧
      buildSlots (List.replicate 30 "x") = (List.replicate 30 "x").take 24) :=
  ⟨⟨by decide, generate_bingo_card_slots_spec.1 ["a", "b"] (by decide)⟩,
   ⟨by decide, generate_bingo_card_slots_spec.2 (List.replicate 30 "x") (by decide)⟩⟩

theorem shuffled_length (items shuffled : List String)
    (hsh : shuffled.Perm (buildSlots items)) : shuffled.length = 24 := by
  have := hsh.length_eq
  rw [buildSlots_length] at this
  exact this

theorem insertFree_length (shuffled : List String)
    (hlen : shuffled.length = 24) : (insertFree shuffled).length = 25 := by
  unfold insertFree
  rw [List.length_insertIdx 12 shuffled (by omega), hlen]

theorem insertFree_getD_12 (shuffled : List String)
    (hlen : shuffled.length = 24) :
    (insertFree shuffled).getD 12 "" = FREE_LABEL := by
  unfold insertFree
  have h12 : (12 : Nat) ≤ shuffled.length := by omega
  have hlt : 12 < (shuffled.insertIdx 12 FREE_LABEL).length := by
    rw [List.length_insertIdx 12 shuffled h12]
    omega
  rw [List.getD_eq_getElem _ _ hlt]
  exact List.getElem_insertIdx_self shuffled FREE_LABEL 12 h12

/-- C2: for every input list and every outcome of the shuffle of the
24-element slot list, the final sequence has exactly 25 elements and the
free-space label occupies logical index 12. -/
theorem generate_bingo_card_free_at_12 (items shuffled : List String)
    (hsh : shuffled.Perm (buildSlots items)) :
    (insertFree shuffled).length = 25 ∧
    (insertFree shuffled).getD 12 "" = FREE_LABEL := by
  have hlen := shuffled_length items shuffled hsh
  exact ⟨insertFree_length shuffled hlen, insertFree_getD_12 shuffled hlen⟩

theorem generate_bingo_card_free_at_12_witness :
    (insertFree (buildSlots [])).length = 25 ∧
    (insertFree (buildSlots [])).getD 12 "" = FREE_LABEL :=
  generate_bingo_card_free_at_12 [] (buildSlots []) (List.Perm.refl _)

/-- C5: the coordinate mapping `idx = (4 - j) * 5 + i` is a bijection
between grid coordinates (i, j) in [0,4] x [0,4] and logical indices
[0,24]; every logical index is produced by exactly one pair. -/
theorem gridIdx_bijective :
    Function.Bijective gridIdxF ∧
    ∀ k : Fin 25, ∃! p : Fin 5 × Fin 5, gridIdxF p = k := by
  have hinj : Function.Injective gridIdxF := by decide
  have hsurj : Function.Surjective gridIdxF := by decide
  refine ⟨⟨hinj, hsurj⟩, ?_⟩
  intro k
  obtain ⟨p, hp⟩ := hsurj k
  exact ⟨p, hp, fun q hq => hinj (hq.trans hp.symm)⟩

/-- C3 counterexample: the cell at zero-indexed row 3, column 3 has logical
index (4 - 3) * 5 + 3 = 8, so it is not the free-space cell (index 12, the
pink one); index 12 is produced by row 2, column 2. -/
theorem free_cell_not_at_3_3 :
    gridIdx 3 3 = 8 ∧ ¬ gridIdx 3 3 = 12 ∧
    faceColor (gridIdx 3 3) = "white" ∧ gridIdx 2 2 = 12 := by decide

/-- C3 amended: the single fixed free-space position (the cell drawn with
the distinct fill color, holding the free-space label) is at row 2,
column 2 of the zero-indexed 5 x 5 grid, i.e. the center. -/
theorem free_cell_at_center :
    (∀ i j : Fin 5, faceColor (gridIdx i.1 j.1) = "#fff0f3" ↔
      (i.1 = 2 ∧ j.1 = 2)) ∧
    (∀ items shuffled : List String, shuffled.Perm (buildSlots items) →
      cellLabel (insertFree shuffled) 2 2 = FREE_LABEL) := by
  constructor
  · decide
  · intro items shuffled hsh
    show (insertFree shuffled).getD (gridIdx 2 2) "" = FREE_LABEL
    rw [show gridIdx 2 2 = 12 from rfl]
    exact insertFree_getD_12 shuffled (shuffled_length items shuffled hsh)

theorem free_cell_at_center_witness :
    faceColor (gridIdx 2 2) = "#fff0f3" ∧
    cellLabel (insertFree (buildSlots [])) 2 2 = FREE_LABEL :=
  ⟨(free_cell_at_center.1 2 2).mpr (by decide),
   free_cell_at_center.2 [] (buildSlots []) (List.Perm.refl _)⟩

/-- C4 counterexample: the string inserted at index 12 is
"FREE:\nAppreciate Life" (colon followed by a newline), which is not the
space-separated literal "FREE: Appreciate Life" the claim states. -/
theorem free_label_has_newline :
    (insertFree (buildSlots [])).getD 12 "" = "FREE:\nAppreciate Life" ∧
    ¬ (insertFree (buildSlots [])).getD 12 "" = "FREE: Appreciate Life" := by
  decide

/-- C4 amended: for every input list and every shuffle outcome, the string
inserted at index 12 equals the literal "FREE:\nAppreciate Life" (the word
FREE with a colon, a newline, then Appreciate Life). -/
theorem free_cell_label_literal (items shuffled : List String)
    (hsh : shuffled.Perm (buildSlots items)) :
    (insertFree shuffled).getD 12 "" = "FREE:\nAppreciate Life" :=
  insertFree_getD_12 shuffled (shuffled_length items shuffled hsh)

theorem free_cell_label_literal_witness :
    (insertFree (buildSlots [])).getD 12 "" = "FREE:\nAppreciate Life" :=
  free_cell_label_literal [] (buildSlots []) (List.Perm.refl _)

/-- Thirty pairwise-distinct strings whose first entry happens to equal the
free-space label; used to refute the unconditional form of the
no-duplicates claim. -/
def cexItems : List String :=
  [FREE_LABEL, "g1", "g2", "g3", "g4", "g5", "g6", "g7", "g8", "g9",
   "g10", "g11", "g12", "g13", "g14", "g15", "g16", "g17", "g18", "g19",
   "g20", "g21", "g22", "g23", "g24", "g25", "g26", "g27", "g28", "g29"]

/-- Thirty pairwise-distinct strings, none equal to the free-space label. -/
def okItems : List String :=
  ["h1", "h2", "h3", "h4", "h5", "h6", "h7", "h8", "h9", "h10",
   "h11", "h12", "h13", "h14", "h15", "h16", "h17", "h18", "h19", "h20",
   "h21", "h22", "h23", "h24", "h25", "h26", "h27", "h28", "h29", "h30"]

/-- C8 counterexample: `cexItems` is a list of 30 pairwise-distinct strings,
yet under the identity shuffle outcome the resulting card holds the string
"FREE:\nAppreciate Life" in two cells (it is both the first input item and
the inserted free square), so the card is not duplicate-free. -/
theorem card_duplicate_cex :
    cexItems.length = 30 ∧ cexItems.Nodup ∧
    (insertFree (buildSlots cexItems)).count FREE_LABEL = 2 ∧
    ¬ (insertFree (buildSlots cexItems)).Nodup := by decide

/-- C8 amended: for every list of 30 pairwise-distinct strings none of which
equals the free-space label, and every shuffle outcome, the 25-cell card is
a permutation of the free label together with the first 24 input items
(selected by truncation before shuffling), and no string occupies two
cells. -/
theorem card_contents_30_distinct (items shuffled : List String)
    (hlen : items.length = 30) (hnd : items.Nodup)
    (hfree : FREE_LABEL ∉ items)
    (hsh : shuffled.Perm (buildSlots items)) :
    (insertFree shuffled).Perm (FREE_LABEL :: items.take 24) ∧
    (insertFree shuffled).Nodup := by
  have hslen : shuffled.length = 24 := shuffled_length items shuffled hsh
  have h24 : buildSlots items = items.take 24 := by
    unfold buildSlots
    rw [if_neg (by omega)]
  rw [h24] at hsh
  have hperm : (insertFree shuffled).Perm (FREE_LABEL :: items.take 24) := by
    refine (List.perm_insertIdx FREE_LABEL shuffled (by omega)).trans ?_
    exact hsh.cons FREE_LABEL
  refine ⟨hperm, hperm.symm.nodup ?_⟩
  refine List.Nodup.cons ?_ (hnd.sublist (List.take_sublist 24 items))
  intro hmem
  exact hfree (List.take_subset 24 items hmem)

theorem card_contents_30_distinct_witness :
    (insertFree (buildSlots okItems)).Perm (FREE_LABEL :: okItems.take 24) ∧
    (insertFree (buildSlots okItems)).Nodup :=
  card_contents_30_distinct okItems (buildSlots okItems)
    (by decide) (by decide) (by decide) (List.Perm.refl _)

/-- Whitespace test used by Python `str.strip()` (the ASCII range, which is
all the surrounding code produces). -/
def pyIsSpace (c : Char) : Bool :=
  c = ' ' || c = '\t' || c = '\n' || c = '\r' || c = '\x0b' || c = '\x0c'

/-- Strip leading and trailing whitespace from a character list. -/
def stripL (cs : List Char) : List Char :=
  ((cs.dropWhile pyIsSpace).reverse.dropWhile pyIsSpace).reverse

/-- Model of Python `str.strip()`: remove leading and trailing whitespace. -/
def pyStrip (s : String) : String := String.mk (stripL s.toList)

/-- Whether the pattern (first argument) is an initial segment of the text
(second argument); models Python `str.startswith`. -/
def startsWithL : List Char → List Char → Bool
  | [], _ => true
  | _ :: _, [] => false
  | p :: ps, c :: cs => p = c && startsWithL ps cs

/-- Model of Python `str.split(sep)` for a non-empty separator: cut the
text at every non-overlapping occurrence of the separator, scanning left
to right.  Fuel bounds the recursion; any value above the text length is
enough. -/
def pySplit (sep : List Char) : Nat → List Char → List (List Char)
  | 0, cs => [cs]
  | _, [] => [[]]
  | Nat.succ fuel, c :: rest =>
    if startsWithL sep (c :: rest) then
      [] :: pySplit sep fuel ((c :: rest).drop sep.length)
    else
      match pySplit sep fuel rest with
      | [] => [[c]]
      | g :: gs => (c :: g) :: gs
termination_by structural fuel => fuel

/-- The markdown code-fence delimiter, three backticks. -/
def fence : List Char := ['\x60', '\x60', '\x60']

/-- The response-stripping step of `parse_items_with_llm` (lines 31-37):
strip the content; when it starts with a code fence, take the text between
the first pair of fences (the Python `result.split` on the fence at index
1), drop a leading "json" language tag, and strip again. -/
def stripResponse (content : String) : String :=
  let result := stripL content.toList
  if startsWithL fence result then
    let r1 := (pySplit fence (result.length + 1) result).getD 1 []
    let r2 := if startsWithL ['j', 's', 'o', 'n'] r1 then r1.drop 4 else r1
    String.mk (stripL r2)
  else String.mk result

/-- JSON values as produced by Python `json.loads`, with numbers restricted
to integers (the only numbers the modelled fragment exercises). -/
inductive Json where
  | null
  | bool (b : Bool)
  | num (n : Int)
  | str (s : String)
  | arr (xs : List Json)
  | obj (kvs : List (String × Json))

/-- JSON whitespace as accepted by Python's json module. -/
def jsonWs (c : Char) : Bool := c = ' ' || c = '\t' || c = '\n' || c = '\r'

def skipWs (cs : List Char) : List Char := cs.dropWhile jsonWs

/-- Value of a hexadecimal digit. -/
def hexVal (c : Char) : Option Nat :=
  if '0' ≤ c ∧ c ≤ '9' then some (c.toNat - '0'.toNat)
  else if 'a' ≤ c ∧ c ≤ 'f' then some (c.toNat - 'a'.toNat + 10)
  else if 'A' ≤ c ∧ c ≤ 'F' then some (c.toNat - 'A'.toNat + 10)
  else none

/-- Parse the remainder of a JSON string literal (the opening quote already
consumed), decoding backslash escapes as Python `json.loads` does and
rejecting raw control characters (strict mode).  Unicode escapes that do
not denote a valid scalar value (surrogates) are outside the modelled
fragment and rejected. -/
def parseJString : List Char → Option (List Char × List Char)
  | [] => none
  | '"' :: rest => some ([], rest)
  | '\\' :: '"' :: rest =>
    (parseJString rest).map (fun p => ('"' :: p.1, p.2))
  | '\\' :: '\\' :: rest =>
    (parseJString rest).map (fun p => ('\\' :: p.1, p.2))
  | '\\' :: '/' :: rest =>
    (parseJString rest).map (fun p => ('/' :: p.1, p.2))
  | '\\' :: 'b' :: rest =>
    (parseJString rest).map (fun p => ('\x08' :: p.1, p.2))
  | '\\' :: 'f' :: rest =>
    (parseJString rest).map (fun p => ('\x0c' :: p.1, p.2))
  | '\\' :: 'n' :: rest =>
    (parseJString rest).map (fun p => ('\n' :: p.1, p.2))
  | '\\' :: 'r' :: rest =>
    (parseJString rest).map (fun p => ('\r' :: p.1, p.2))
  | '\\' :: 't' :: rest =>
    (parseJString rest).map (fun p => ('\t' :: p.1, p.2))
  | '\\' :: 'u' :: h1 :: h2 :: h3 :: h4 :: rest =>
    match hexVal h1, hexVal h2, hexVal h3, hexVal h4 with
    | some a, some b, some c, some d =>
      let n := ((a * 16 + b) * 16 + c) * 16 + d
      if h : n.isValidChar then
        (parseJString rest).map (fun p => (Char.ofNatAux n h :: p.1, p.2))
      else none
    | _, _, _, _ => none
  | '\\' :: _ => none
  | c :: rest =>
    if c.toNat < 32 then none
    else (parseJString rest).map (fun p => (c :: p.1, p.2))

/-- Parse a JSON integer: optional minus sign, digits, no leading zeros.
Inputs that continue with a fraction or an exponent (floats) are outside
the modelled fragment and rejected. -/
def parseJInt (cs : List Char) : Option (Int × List Char) :=
  let neg := match cs with
    | '-' :: _ => true
    | _ => false
  let cs1 := if neg then cs.drop 1 else cs
  let digits := cs1.takeWhile Char.isDigit
  let rest := cs1.drop digits.length
  if digits.isEmpty then none
  else if 1 < digits.length ∧ digits.getD 0 '0' = '0' then none
  else match rest with
    | '.' :: _ => none
    | 'e' :: _ => none
    | 'E' :: _ => none
    | _ =>
      let n : Nat := digits.foldl (fun acc c => acc * 10 + (c.toNat - 48)) 0
      some (if neg then -(n : Int) else (n : Int), rest)

mutual

/-- Parse one JSON value (leading whitespace allowed), with fuel bounding
the recursion depth. -/
def parseJVal : Nat → List Char → Option (Json × List Char)
  | 0, _ => none
  | Nat.succ fuel, cs =>
    match skipWs cs with
    | [] => none
    | c :: rest =>
      if c = '"' then
        match parseJString rest with
        | none => none
        | some (chars, rem) => some (Json.str (String.mk chars), rem)
      else if c = '[' then
        match skipWs rest with
        | ']' :: rem => some (Json.arr [], rem)
        | _ =>
          match parseJArrItems fuel rest with
          | none => none
          | some (xs, rem) => some (Json.arr xs, rem)
      else if c = '{' then
        match skipWs rest with
        | '}' :: rem => some (Json.obj [], rem)
        | _ =>
          match parseJObjItems fuel rest with
          | none => none
          | some (kvs, rem) => some (Json.obj kvs, rem)
      else if c = 't' then
        match rest with
        | 'r' :: 'u' :: 'e' :: rem => some (Json.bool true, rem)
        | _ => none
      else if c = 'f' then
        match rest with
        | 'a' :: 'l' :: 's' :: 'e' :: rem => some (Json.bool false, rem)
        | _ => none
      else if c = 'n' then
        match rest with
        | 'u' :: 'l' :: 'l' :: rem => some (Json.null, rem)
        | _ => none
      else
        match parseJInt (c :: rest) with
        | none => none
        | some (n, rem) => some (Json.num n, rem)
termination_by structural fuel => fuel

/-- Parse the items of a non-empty JSON array after the opening bracket,
including the closing bracket. -/
def parseJArrItems : Nat → List Char → Option (List Json × List Char)
  | 0, _ => none
  | Nat.succ fuel, cs =>
    match parseJVal fuel cs with
    | none => none
    | some (x, rem) =>
      match skipWs rem with
      | ',' :: rem2 =>
        match parseJArrItems fuel rem2 with
        | none => none
        | some (xs, rem3) => some (x :: xs, rem3)
      | ']' :: rem2 => some ([x], rem2)
      | _ => none
termination_by structural fuel => fuel

/-- Parse the members of a non-empty JSON object after the opening brace,
including the closing brace. -/
def parseJObjItems : Nat → List Char → Option (List (String × Json) × List Char)
  | 0, _ => none
  | Nat.succ fuel, cs =>
    match skipWs cs with
    | '"' :: rest =>
      match parseJString rest with
      | none => none
      | some (kchars, rem) =>
        match skipWs rem with
        | ':' :: rem2 =>
          match parseJVal fuel rem2 with
          | none => none
          | some (v, rem3) =>
            match skipWs rem3 with
            | ',' :: rem4 =>
              match parseJObjItems fuel rem4 with
              | none => none
              | some (kvs, rem5) => some ((String.mk kchars, v) :: kvs, rem5)
            | '}' :: rem4 => some ([(String.mk kchars, v)], rem4)
            | _ => none
        | _ => none
    | _ => none
termination_by structural fuel => fuel

end

/-- Model of Python `json.loads` on the fragment this program exercises:
null, booleans, integers, strings with escapes, arrays and objects; a
trailing non-whitespace remainder is rejected ("Extra data").  `none`
models a raised `JSONDecodeError`. -/
def json_loads (s : String) : Option Json :=
  let cs := s.toList
  match parseJVal (2 * cs.length + 2) cs with
  | none => none
  | some (j, rest) => if (skipWs rest).isEmpty then some j else none

/-- The pure core of `parse_items_with_llm` (lines 31-39): the remote call
is abstracted as the response content it yields, the content is stripped of
code fences and the remainder fed to `json.loads`.  `none` models a raised
exception (parse failure). -/
def parse_items_with_llm (content : String) : Option Json :=
  json_loads (stripResponse content)

/-- Whether a JSON value is an array whose elements are all strings. -/
def isStrArr : Json → Bool
  | Json.arr xs => xs.all (fun x => match x with | Json.str _ => true | _ => false)
  | _ => false

/-- C6: a response wrapped as ```json fences around ["Ski","Read"] parses
to that two-element string array, and a response whose content after
stripping is plain prose (not valid JSON) fails to parse. -/
theorem parse_items_strip_examples :
    parse_items_with_llm "```json\n[\"Ski\",\"Read\"]\n```" =
      some (Json.arr [Json.str "Ski", Json.str "Read"]) ∧
    parse_items_with_llm "Here are your items: Ski and Read." = none := by
  exact ⟨rfl, rfl⟩

/-- C7 counterexample: the response "5" parses successfully as the JSON
number 5, so `parse_items_with_llm` can succeed with a value that is not a
list of strings — it performs no validation of the parsed value. -/
theorem parse_items_not_string_list :
    parse_items_with_llm "5" = some (Json.num 5) ∧
    isStrArr (Json.num 5) = false := by
  exact ⟨rfl, rfl⟩

/-- C7 amended: `parse_items_with_llm` either fails or returns exactly the
JSON value parsed from the stripped response text, with no check that this
value is an array of strings; it is a list of strings only when the
response happens to be a JSON array of strings. -/
theorem parse_items_returns_parsed_json (content : String) :
    (parse_items_with_llm content = none ∧
      json_loads (stripResponse content) = none) ∨
    (∃ j : Json, parse_items_with_llm content = some j ∧
      json_loads (stripResponse content) = some j) := by
  unfold parse_items_with_llm
  cases h : json_loads (stripResponse content) with
  | none => exact Or.inl ⟨rfl, rfl⟩
  | some j => exact Or.inr ⟨j, rfl, rfl⟩

/-- The observable outcome of one press of the Generate button
(lines 133-156): whether the remote call is attempted, which error message
(if any) is shown, whether the success message is shown, and whether
`generate_bingo_card` is called (a card is displayed). -/
structure DriverResult where
  networkCalled : Bool
  errorMsg : Option String
  successShown : Bool
  cardRendered : Bool
deriving DecidableEq

/-- Python truthiness of the value bound to `items` when `if items:` runs
at line 152: empty collections, zero, the empty string are falsy. -/
def jsonTruthy : Json → Bool
  | Json.null => false
  | Json.bool b => b
  | Json.num n => n != 0
  | Json.str s => s != ""
  | Json.arr xs => !xs.isEmpty
  | Json.obj kvs => !kvs.isEmpty

/-- The Generate button handler (lines 133-156) as a function of the user
input, the credential (`none` models an unset OPENROUTER_API_KEY; Python
falsiness also treats an empty value as missing) and the remote response
content.  The remote call plus parse is `parse_items_with_llm` on that
content; the `except` branch shows the parse error and leaves `items =
None`, and the card is rendered only when `if items:` finds a truthy
value. -/
def driver (userInput : String) (apiKey : Option String)
    (responseContent : String) : DriverResult :=
  if pyStrip userInput = "" then
    ⟨false, some "Please enter some items first!", false, false⟩
  else if apiKey.getD "" = "" then
    ⟨false, some "Please set OPENROUTER_API_KEY environment variable",
     false, false⟩
  else
    match parse_items_with_llm responseContent with
    | none => ⟨true, some "Error parsing items", false, false⟩
    | some items => ⟨true, none, true, jsonTruthy items⟩

/-- C9: empty or whitespace-only input short-circuits before any network
call and surfaces the user-input error; with non-blank input, an unset
OPENROUTER_API_KEY is reported as a configuration error, again with no
network call attempted. -/
theorem driver_short_circuits :
    (∀ input content : String, ∀ apiKey : Option String,
      pyStrip input = "" →
      driver input apiKey content =
        ⟨false, some "Please enter some items first!", false, false⟩) ∧
    (∀ input content : String,
      ¬ pyStrip input = "" →
      driver input none content =
        ⟨false, some "Please set OPENROUTER_API_KEY environment variable",
         false, false⟩) := by
  constructor
  · intro input content apiKey h
    unfold driver
    rw [if_pos h]
  · intro input content h
    unfold driver
    rw [if_neg h]
    rfl

theorem driver_short_circuits_witness :
    driver " \n " (some "key") "[\"Ski\"]" =
      ⟨false, some "Please enter some items first!", false, false⟩ ∧
    driver "my goals" none "[\"Ski\"]" =
      ⟨false, some "Please set OPENROUTER_API_KEY environment variable",
       false, false⟩ :=
  ⟨driver_short_circuits.1 " \n " "[\"Ski\"]" (some "key") (by decide),
   driver_short_circuits.2 "my goals" "[\"Ski\"]" (by decide)⟩

/-- C10: when the input is non-blank, the credential is set and extraction
succeeds with the empty list, the handler silently skips rendering: no
error is shown (the success message still is), and `generate_bingo_card`
is not called — the `if items:` guard treats the empty list like a failed
extraction. -/
theorem driver_empty_list_skips_render (input key content : String)
    (hin : ¬ pyStrip input = "") (hkey : ¬ key = "")
    (hresp : parse_items_with_llm content = some (Json.arr [])) :
    driver input (some key) content = ⟨true, none, true, false⟩ := by
  unfold driver
  rw [if_neg hin, if_neg (by simpa using hkey), hresp]
  rfl

theorem driver_empty_list_skips_render_witness :
    driver "my goals" (some "key") "[]" = ⟨true, none, true, false⟩ :=
  driver_empty_list_skips_render "my goals" "key" "[]"
    (by decide) (by decide) rfl
